import Mathlib

set_option maxRecDepth 100000

/-!
Shallow embedding of `src/gles3jni/app/src/main/cpp/gles3jni.cpp`.

Numeric model: the C code computes with IEEE `float`/`double`; here every
numeric quantity is embedded as a rational number `ℚ`, so the theorems are
about the exact (real-valued) arithmetic the source expresses.  Timestamps
(`uint64_t` nanoseconds from a monotonic clock) are embedded as `ℕ`.

The pseudo-random source `drand48()` (values in `[0,1)`) is embedded as a
stream `rand : ℕ → ℚ`; the n-th call of a modeled operation reads `rand n`.

`MAX_INSTANCES_ITEM` is a constant from the header `gles3jni.h`, which is
not part of the repository snapshot; the model takes the instance count `N`
as a parameter.  The per-instance angle / angular-velocity fields are
written by `resize` but never read by any modeled operation (the code that
used them inside `step` is commented out in the source), so they are left
out of the state.
-/

namespace GLES3JNI

/-- Renderer simulation state (the fields of `class Renderer` that the
modeled operations read or write).  `localOffset`, `mVx`, `mVy` are the
flat float arrays of length `2 * MAX_INSTANCES_ITEM`; instance `k` uses
`localOffset[2k]`/`localOffset[2k+1]` for its x/y offset and
`mVx[2k]` / `mVy[2k]` for its x/y velocity (only even indices of the
velocity arrays are read by `step`). -/
structure Renderer where
  mNumInstances : ℕ
  localOffset : List ℚ
  mVx : List ℚ
  mVy : List ℚ
  offsetRatio : ℚ
  mScale : ℚ × ℚ
  mLastFrameNs : ℕ
deriving DecidableEq

/-- One axis of the integration loop body in `Renderer::step`:
`o += v*dt*0.1; if (o > 1.0 || o < -1.0) { o -= 2*v*dt*0.1; v = -v; }`. -/
def bounceStep (o v dt : ℚ) : ℚ × ℚ :=
  if 1 < o + v * dt * (1/10) ∨ o + v * dt * (1/10) < -1
  then (o + v * dt * (1/10) - 2 * (v * dt * (1/10)), -v)
  else (o + v * dt * (1/10), v)

/-- The `for (int i = 0; i < 2*MAX_INSTANCES_ITEM - 1; i += 2)` loop of
`Renderer::step`: consumes the offset array two entries (one instance) at a
time; odd-indexed entries of the velocity arrays are untouched. -/
def stepLoop (dt : ℚ) : List ℚ → List ℚ → List ℚ → List ℚ × List ℚ × List ℚ
  | ox :: oy :: o, vx0 :: vx1 :: vx, vy0 :: vy1 :: vy =>
    let px := bounceStep ox vx0 dt
    let py := bounceStep oy vy0 dt
    let rest := stepLoop dt o vx vy
    (px.1 :: py.1 :: rest.1, px.2 :: vx1 :: rest.2.1, py.2 :: vy1 :: rest.2.2)
  | o, vx, vy => (o, vx, vy)

/-- `Renderer::step`, with the current monotonic-clock reading passed in as
`nowNs`.  When `mLastFrameNs > 0` it integrates with
`dt = (nowNs - mLastFrameNs) * 1e-9` seconds; in every case it records
`nowNs` as the last-frame timestamp. -/
def Renderer.step (r : Renderer) (nowNs : ℕ) : Renderer :=
  if 0 < r.mLastFrameNs then
    let dt : ℚ := ((nowNs - r.mLastFrameNs : ℕ) : ℚ) * (1/1000000000)
    let res := stepLoop dt r.localOffset r.mVx r.mVy
    { r with localOffset := res.1, mVx := res.2.1, mVy := res.2.2,
             mLastFrameNs := nowNs }
  else
    { r with mLastFrameNs := nowNs }

/-- `Renderer::calcSceneParams(w, h, offsets)`: sets the instance count,
allocates and seeds the offset and velocity arrays from `drand48()`
(three calls per loop iteration, in source order), and computes the
aspect-corrected scale `(0.1, 0.1 * h / w)`. -/
def Renderer.calcSceneParams (r : Renderer) (N w h : ℕ) (rand : ℕ → ℚ) :
    Renderer :=
  { r with
    mNumInstances := N,
    offsetRatio := 2,
    localOffset := (List.range (2*N)).map fun i => (rand (3*i) - 1/2) * 2,
    mVx := (List.range (2*N)).map fun i => (rand (3*i+1) - 1/2) * 10,
    mVy := (List.range (2*N)).map fun i => (rand (3*i+2) - 1/2) * 10,
    mScale := (1/10, ((1/10) * (h:ℚ)) / (w:ℚ)) }

/-- `Renderer::resize(w, h)`: recomputes the scene parameters and resets
the frame clock to the uninitialized value `0`.  (The angle-seeding loop
between the two writes only touches the unmodeled angle fields.) -/
def Renderer.resize (r : Renderer) (N w h : ℕ) (rand : ℕ → ℚ) : Renderer :=
  { r.calcSceneParams N w h rand with mLastFrameNs := 0 }

/-- A sequence of `step` calls at the given clock readings. -/
def runSteps (r : Renderer) (ts : List ℕ) : Renderer :=
  ts.foldl Renderer.step r

/-- Scratch default renderer for concrete instantiations. -/
def renderer0 : Renderer :=
  { mNumInstances := 0, localOffset := [], mVx := [], mVy := [],
    offsetRatio := 0, mScale := (0, 0), mLastFrameNs := 0 }

/-- All offsets lie in `[-1, 1]` and all velocity entries have magnitude at
most `B`. -/
def GoodState (B : ℚ) (r : Renderer) : Prop :=
  (∀ x ∈ r.localOffset, -1 ≤ x ∧ x ≤ 1) ∧
  (∀ v ∈ r.mVx, |v| ≤ B) ∧ (∀ v ∈ r.mVy, |v| ≤ B)

/-- Along a list of clock readings, each reading is either taken from the
uninitialized clock state (`last = 0`, so the step records it without
moving) or comes at most `10^10 / B` nanoseconds after the previous one
(so each axis moves by at most `1` per frame when velocities are bounded
by `B`). -/
def gapsOK (B : ℚ) : ℕ → List ℕ → Bool
  | _, [] => true
  | last, t :: ts =>
    (decide (last = 0) || decide (((t - last : ℕ) : ℚ) * B ≤ 10 ^ 10)) &&
      gapsOK B t ts

/-! Model of the GL side of the shader utilities.  The GL driver's
responses are an explicit environment; the side effects the source
performs (`glDeleteShader`, `glDeleteProgram`, `ALOGE`) are recorded as an
ordered action trace. -/

/-- An observable side effect of the shader utilities. -/
inductive GLAction
  | deleteShader (id : ℕ)
  | deleteProgram (id : ℕ)
  | logError (msg : String)
deriving DecidableEq

/-- Whether an action is an `ALOGE` log emission. -/
def GLAction.isLog : GLAction → Bool
  | .logError _ => true
  | _ => false

/-- Driver responses consumed by one `createShader` call:
the handle returned by `glCreateShader` (`0` = failure), the value
`glGetError` would report after a failed create, the compile status, the
reported info-log length, whether the `malloc` for the log buffer
succeeds, and the driver's info-log text. -/
structure ShaderEnv where
  shaderId : ℕ
  glError : ℕ
  compileOk : Bool
  infoLogLen : ℕ
  mallocOk : Bool
  infoLog : String
deriving DecidableEq

/-- `createShader(shaderType, src)`: returns the shader handle (or `0`)
together with the trace of deletions and log emissions, following the
source line by line. -/
def createShader (env : ShaderEnv) (isVertex : Bool) : ℕ × List GLAction :=
  if env.shaderId = 0 then
    (0, if env.glError ≠ 0 then [.logError "GL error after glCreateShader"]
        else [])
  else if env.compileOk = false then
    (0,
      (if 0 < env.infoLogLen then
        (if env.mallocOk then
          [.logError ("Could not compile " ++
            (if isVertex then "vertex" else "fragment") ++
            " shader:\n" ++ env.infoLog)]
        else [])
       else []) ++ [.deleteShader env.shaderId])
  else
    (env.shaderId, [])

/-- Driver responses consumed by one `createProgram` call: the two shader
environments, the handle from `glCreateProgram` (`0` = failure), the value
`glGetError` would report after a failed create, the link status, and the
link info-log data. -/
structure ProgramEnv where
  vtxEnv : ShaderEnv
  fragEnv : ShaderEnv
  programId : ℕ
  glError : ℕ
  linkOk : Bool
  infoLogLen : ℕ
  mallocOk : Bool
  infoLog : String
deriving DecidableEq

/-- `createProgram(vtxSrc, fragSrc)`: compiles both shaders, creates and
links the program, and on every path reaches the `exit:` label, which
calls `glDeleteShader` on both shader variables (possibly `0`, a GL
no-op).  Returns the program handle (or `0`) and the ordered action
trace. -/
def createProgram (env : ProgramEnv) : ℕ × List GLAction :=
  if (createShader env.vtxEnv true).1 = 0 then
    (0, (createShader env.vtxEnv true).2 ++
      [.deleteShader (createShader env.vtxEnv true).1, .deleteShader 0])
  else if (createShader env.fragEnv false).1 = 0 then
    (0, (createShader env.vtxEnv true).2 ++ (createShader env.fragEnv false).2 ++
      [.deleteShader (createShader env.vtxEnv true).1,
       .deleteShader (createShader env.fragEnv false).1])
  else if env.programId = 0 then
    (0, (createShader env.vtxEnv true).2 ++ (createShader env.fragEnv false).2 ++
      (if env.glError ≠ 0 then [.logError "GL error after glCreateProgram"]
       else []) ++
      [.deleteShader (createShader env.vtxEnv true).1,
       .deleteShader (createShader env.fragEnv false).1])
  else if env.linkOk = false then
    (0, (createShader env.vtxEnv true).2 ++ (createShader env.fragEnv false).2 ++
      ([.logError "Could not link program"] ++
       (if 0 < env.infoLogLen then
         (if env.mallocOk then
           [.logError ("Could not link program:\n" ++ env.infoLog)]
          else [])
        else []) ++
       [.deleteProgram env.programId]) ++
      [.deleteShader (createShader env.vtxEnv true).1,
       .deleteShader (createShader env.fragEnv false).1])
  else
    (env.programId,
      (createShader env.vtxEnv true).2 ++ (createShader env.fragEnv false).2 ++
      [.deleteShader (createShader env.vtxEnv true).1,
       .deleteShader (createShader env.fragEnv false).1])

/-! Model of the host-facing boundary (`g_renderer` and the three
`Java_com_android_gles3jni_GLES3JNILib_*` entry points). -/

/-- The process-wide state: the single global renderer pointer. -/
structure AppState where
  g_renderer : Option Renderer
deriving DecidableEq

/-- `strstr(haystack, needle) != NULL` on character lists: does `pat`
occur as a prefix of the text? -/
def charsHavePre : List Char → List Char → Bool
  | [], _ => true
  | _ :: _, [] => false
  | p :: ps, c :: cs => p == c && charsHavePre ps cs

/-- `strstr(haystack, needle) != NULL` on character lists: does `pat`
occur as a contiguous substring of `hay`? -/
def strstr (pat : List Char) : List Char → Bool
  | [] => charsHavePre pat []
  | c :: cs => charsHavePre pat (c :: cs) || strstr pat cs

/-- `gl3stubInit()`: in this translation unit (no `DYNAMIC_ES3`) it
returns `GL_TRUE` unconditionally. -/
def gl3stubInit : Bool := true

/-- Observable effects of the `init` entry point. -/
inductive InitAction
  | freeRenderer
  | logUnsupported
deriving DecidableEq

/-- `Java_com_android_gles3jni_GLES3JNILib_init`: deletes and nulls any
existing renderer, then dispatches on the driver version string.
`createES3Renderer` / `createES2Renderer` live outside this translation
unit; their results (null on failure) are passed in as `es3New` /
`es2New`. -/
def jniInit (s : AppState) (version : String)
    (es3New es2New : Option Renderer) : AppState × List InitAction :=
  let freed : List InitAction :=
    match s.g_renderer with
    | some _ => [.freeRenderer]
    | none => []
  if strstr "OpenGL ES 3.".data version.data && gl3stubInit then
    (⟨es3New⟩, freed)
  else if strstr "OpenGL ES 2.".data version.data then
    (⟨es2New⟩, freed)
  else
    (⟨none⟩, freed ++ [.logUnsupported])

/-- `Java_com_android_gles3jni_GLES3JNILib_resize`: calls
`g_renderer->resize(w, h)` only when the global pointer is non-null. -/
def jniResize (s : AppState) (N w h : ℕ) (rand : ℕ → ℚ) : AppState :=
  match s.g_renderer with
  | none => s
  | some r => ⟨some (r.resize N w h rand)⟩

/-- `Renderer::render()`: advances the simulation one step and issues the
instanced draw; the `Bool` records that a draw call happened. -/
def Renderer.render (r : Renderer) (nowNs : ℕ) : Renderer × Bool :=
  (r.step nowNs, true)

/-- `Java_com_android_gles3jni_GLES3JNILib_step`: calls
`g_renderer->render()` only when the global pointer is non-null; the
`Bool` records whether anything was drawn. -/
def jniStep (s : AppState) (nowNs : ℕ) : AppState × Bool :=
  match s.g_renderer with
  | none => (s, false)
  | some r => (⟨some (r.render nowNs).1⟩, (r.render nowNs).2)

/-! Lemmas about one axis of the bounce update. -/

lemma bounceStep_abs_snd (o v dt : ℚ) : |(bounceStep o v dt).2| = |v| := by
  unfold bounceStep
  split <;> simp

lemma bounceStep_fst_eq (o v dt : ℚ) :
    (bounceStep o v dt).1 =
      if 1 < o + v * dt * (1/10) ∨ o + v * dt * (1/10) < -1
      then o + v * dt * (1/10) - 2 * (v * dt * (1/10))
      else o + v * dt * (1/10) := by
  rw [bounceStep, apply_ite Prod.fst]

lemma bounceStep_snd_eq (o v dt : ℚ) :
    (bounceStep o v dt).2 =
      if 1 < o + v * dt * (1/10) ∨ o + v * dt * (1/10) < -1
      then -v else v := by
  rw [bounceStep, apply_ite Prod.snd]

lemma bounceStep_fst_mem (o v dt : ℚ) (h1 : -1 ≤ o) (h2 : o ≤ 1)
    (hb : |v * dt * (1/10)| ≤ 1) :
    -1 ≤ (bounceStep o v dt).1 ∧ (bounceStep o v dt).1 ≤ 1 := by
  unfold bounceStep
  rcases abs_le.mp hb with ⟨hl, hr⟩
  split
  · rename_i hcond
    rcases hcond with hgt | hlt
    · exact ⟨by simp only; linarith, by simp only; linarith⟩
    · exact ⟨by simp only; linarith, by simp only; linarith⟩
  · rename_i hcond
    push_neg at hcond
    exact ⟨by simpa using hcond.2, by simpa using hcond.1⟩

/-! Lemmas about the whole integration loop. -/

lemma stepLoop_abs_vx (dt : ℚ) (o vx vy : List ℚ) :
    (stepLoop dt o vx vy).2.1.map (fun v => |v|) = vx.map fun v => |v| := by
  induction o, vx, vy using stepLoop.induct dt with
  | case1 ox oy o vx0 vx1 vx vy0 vy1 vy ih =>
    simp only [stepLoop, List.map_cons, ih, List.map]
    simp [bounceStep_abs_snd]
  | case2 => simp [stepLoop]

lemma stepLoop_abs_vy (dt : ℚ) (o vx vy : List ℚ) :
    (stepLoop dt o vx vy).2.2.map (fun v => |v|) = vy.map fun v => |v| := by
  induction o, vx, vy using stepLoop.induct dt with
  | case1 ox oy o vx0 vx1 vx vy0 vy1 vy ih =>
    simp only [stepLoop, List.map_cons, ih, List.map]
    simp [bounceStep_abs_snd]
  | case2 => simp [stepLoop]

lemma abs_le_of_map_abs_eq {l l' : List ℚ} {B : ℚ}
    (hmap : l'.map (fun v => |v|) = l.map fun v => |v|)
    (hB : ∀ v ∈ l, |v| ≤ B) : ∀ v ∈ l', |v| ≤ B := by
  intro v hv
  have : |v| ∈ l.map fun v => |v| := hmap ▸ List.mem_map_of_mem _ hv
  rcases List.mem_map.mp this with ⟨w, hw, hweq⟩
  exact hweq ▸ hB w hw

lemma stepLoop_offsets_mem (dt B : ℚ) (o vx vy : List ℚ)
    (hdt : 0 ≤ dt) (hB : B * dt ≤ 10)
    (ho : ∀ x ∈ o, -1 ≤ x ∧ x ≤ 1)
    (hvx : ∀ v ∈ vx, |v| ≤ B) (hvy : ∀ v ∈ vy, |v| ≤ B) :
    ∀ x ∈ (stepLoop dt o vx vy).1, -1 ≤ x ∧ x ≤ 1 := by
  induction o, vx, vy using stepLoop.induct dt with
  | case1 ox oy o vx0 vx1 vx vy0 vy1 vy ih =>
    have hinc : ∀ v : ℚ, |v| ≤ B → |v * dt * (1/10)| ≤ 1 := by
      intro v hv
      have h1 : |v * dt * (1/10)| = |v| * dt * (1/10) := by
        rw [abs_mul, abs_mul, abs_of_nonneg hdt]
        norm_num
      have h2 : |v| * dt ≤ B * dt := by
        apply mul_le_mul_of_nonneg_right _ hdt
        exact hv
      rw [h1]
      nlinarith
    intro x hx
    have hox := ho ox (by simp)
    have hoy := ho oy (by simp)
    have hbx := bounceStep_fst_mem ox vx0 dt hox.1 hox.2
      (hinc vx0 (hvx vx0 (by simp)))
    have hby := bounceStep_fst_mem oy vy0 dt hoy.1 hoy.2
      (hinc vy0 (hvy vy0 (by simp)))
    have hrest := ih (fun z hz => ho z (by simp [hz]))
      (fun v hv => hvx v (by simp [hv])) (fun v hv => hvy v (by simp [hv]))
    simp only [stepLoop, List.mem_cons] at hx
    rcases hx with rfl | rfl | hx
    · exact hbx
    · exact hby
    · exact hrest x hx
  | case2 o vx vy h =>
    intro x hx
    exact ho x (by simpa [stepLoop] using hx)

/-! Invariant machinery for the multi-step bound. -/

lemma step_mLastFrameNs (r : Renderer) (nowNs : ℕ) :
    (r.step nowNs).mLastFrameNs = nowNs := by
  unfold Renderer.step
  split <;> rfl

lemma step_goodState {B : ℚ} {r : Renderer} (nowNs : ℕ)
    (h : GoodState B r)
    (hgap : r.mLastFrameNs = 0 ∨ ((nowNs - r.mLastFrameNs : ℕ) : ℚ) * B ≤ 10 ^ 10) :
    GoodState B (r.step nowNs) := by
  obtain ⟨ho, hvx, hvy⟩ := h
  unfold Renderer.step
  split
  · rename_i hpos
    have hgap' : ((nowNs - r.mLastFrameNs : ℕ) : ℚ) * B ≤ 10 ^ 10 := by
      rcases hgap with h0 | hok
      · exact absurd h0 (by omega)
      · exact hok
    refine ⟨?_, ?_, ?_⟩
    · refine stepLoop_offsets_mem _ B _ _ _ ?_ ?_ ho hvx hvy
      · positivity
      · have hc := mul_le_mul_of_nonneg_right hgap'
          (le_of_lt (show (0:ℚ) < 1/1000000000 by norm_num))
        calc B * (((nowNs - r.mLastFrameNs : ℕ) : ℚ) * (1/1000000000))
            = ((nowNs - r.mLastFrameNs : ℕ) : ℚ) * B * (1/1000000000) := by ring
          _ ≤ 10 ^ 10 * (1/1000000000) := hc
          _ = 10 := by norm_num
    · exact abs_le_of_map_abs_eq (stepLoop_abs_vx _ _ _ _) hvx
    · exact abs_le_of_map_abs_eq (stepLoop_abs_vy _ _ _ _) hvy
  · exact ⟨ho, hvx, hvy⟩

lemma runSteps_goodState {B : ℚ} {r : Renderer} {ts : List ℕ}
    (h : GoodState B r) (hgaps : gapsOK B r.mLastFrameNs ts = true) :
    GoodState B (runSteps r ts) := by
  induction ts generalizing r with
  | nil => exact h
  | cons t ts ih =>
    rw [gapsOK, Bool.and_eq_true, Bool.or_eq_true, decide_eq_true_eq,
      decide_eq_true_eq] at hgaps
    have hstep := step_goodState t h hgaps.1
    have : gapsOK B (r.step t).mLastFrameNs ts = true := by
      rw [step_mLastFrameNs]; exact hgaps.2
    exact ih hstep this

lemma resize_goodState (r : Renderer) (N w h : ℕ) (rand : ℕ → ℚ)
    (hrand : ∀ n, 0 ≤ rand n ∧ rand n < 1) :
    GoodState 5 (r.resize N w h rand) := by
  unfold Renderer.resize Renderer.calcSceneParams
  refine ⟨?_, ?_, ?_⟩
  · intro x hx
    simp only [List.mem_map, List.mem_range] at hx
    obtain ⟨i, _, rfl⟩ := hx
    obtain ⟨h0, h1⟩ := hrand (3*i)
    constructor <;> nlinarith
  · intro v hv
    simp only [List.mem_map, List.mem_range] at hv
    obtain ⟨i, _, rfl⟩ := hv
    obtain ⟨h0, h1⟩ := hrand (3*i+1)
    rw [abs_le]
    constructor <;> nlinarith
  · intro v hv
    simp only [List.mem_map, List.mem_range] at hv
    obtain ⟨i, _, rfl⟩ := hv
    obtain ⟨h0, h1⟩ := hrand (3*i+2)
    rw [abs_le]
    constructor <;> nlinarith

lemma resize_mLastFrameNs (r : Renderer) (N w h : ℕ) (rand : ℕ → ℚ) :
    (r.resize N w h rand).mLastFrameNs = 0 := rfl

lemma cons_cons_getElem? (x y : ℚ) (l : List ℚ) (n : ℕ) :
    (x :: y :: l)[n+2]? = l[n]? := by
  simp

lemma stepLoop_getElem (dt : ℚ) (k : ℕ) :
    ∀ (o vx vy : List ℚ), vx.length = o.length → vy.length = o.length →
    ∀ (a p b q : ℚ), o[2*k]? = some a → vx[2*k]? = some p →
      o[2*k+1]? = some b → vy[2*k]? = some q →
      (stepLoop dt o vx vy).1[2*k]? = some (bounceStep a p dt).1 ∧
      (stepLoop dt o vx vy).1[2*k+1]? = some (bounceStep b q dt).1 ∧
      (stepLoop dt o vx vy).2.1[2*k]? = some (bounceStep a p dt).2 ∧
      (stepLoop dt o vx vy).2.2[2*k]? = some (bounceStep b q dt).2 := by
  induction k with
  | zero =>
    intro o vx vy hvx hvy a p b q ha hp hb hq
    match o, vx, vy with
    | [], _, _ => simp at ha
    | [_], _, _ => simp at hb
    | x :: y :: o, [], _ => simp at hvx
    | x :: y :: o, [_], _ => simp at hvx
    | x :: y :: o, _ :: _ :: vx, [] => simp at hvy
    | x :: y :: o, _ :: _ :: vx, [_] => simp at hvy
    | x :: y :: o, p0 :: p1 :: vx, q0 :: q1 :: vy =>
      simp only [Nat.mul_zero, List.getElem?_cons_zero, Option.some.injEq,
        Nat.zero_add, List.getElem?_cons_succ] at ha hp hb hq
      subst ha hp hb hq
      simp [stepLoop]
  | succ k ih =>
    intro o vx vy hvx hvy a p b q ha hp hb hq
    have h2 : 2 * (k + 1) = 2 * k + 2 := by ring
    have h3 : 2 * (k + 1) + 1 = 2 * k + 1 + 2 := by ring
    match o, vx, vy with
    | [], _, _ => rw [h2] at ha; simp at ha
    | [_], _, _ => rw [h2] at ha; simp at ha
    | x :: y :: o, [], _ => simp at hvx
    | x :: y :: o, [_], _ => simp at hvx
    | x :: y :: o, _ :: _ :: vx, [] => simp at hvy
    | x :: y :: o, _ :: _ :: vx, [_] => simp at hvy
    | x :: y :: o, p0 :: p1 :: vx, q0 :: q1 :: vy =>
      rw [h2] at ha hp hq
      rw [h3] at hb
      rw [cons_cons_getElem?] at ha hp hb hq
      have hlx : vx.length = o.length := by simpa using hvx
      have hly : vy.length = o.length := by simpa using hvy
      obtain ⟨r1, r2, r3, r4⟩ := ih o vx vy hlx hly a p b q ha hp hb hq
      refine ⟨?_, ?_, ?_, ?_⟩ <;>
        simp only [stepLoop, h2, h3, cons_cons_getElem?] <;>
        assumption

/-! Claim theorems. -/

/-- C1 (counterexample): the claim that every offset component stays in
`[-1-ε, 1+ε]` across arbitrary step counts after a `resize` is false: with
one instance seeded at offset `0.98`, velocity `4.9`, a first step at
`t = 1 ns` and a second step `2000` seconds later, the bounce branch puts
the x offset at `0.98 - 4.9*2000*0.1 = -979.02`, far below `-2` (so the
claim fails for every tolerance `ε ≤ 978`). -/
theorem offset_escapes_after_large_dt :
    (runSteps (renderer0.resize 1 1 1 (fun _ => 99/100))
        [1, 1 + 2*10^12]).localOffset.getD 0 0 < -2 := by
  with_unfolding_all decide

/-- C1 (amended): after a `resize`, along any sequence of `step` calls in
which every frame that actually integrates (previous timestamp nonzero)
comes at most `2` seconds (`2*10^9 ns`, i.e. gap `* 5 ≤ 10^10`) after the
previous one, every offset component stays within `[-1, 1]` (the bounce
overshoot correction never leaves the box when each per-axis per-frame
displacement `|v*dt*0.1|` is at most `1`). -/
theorem offsets_bounded_of_small_gaps (r : Renderer) (N w h : ℕ)
    (rand : ℕ → ℚ) (ts : List ℕ)
    (hrand : ∀ n, 0 ≤ rand n ∧ rand n < 1)
    (hgaps : gapsOK 5 0 ts = true) :
    ∀ x ∈ (runSteps (r.resize N w h rand) ts).localOffset,
      -1 ≤ x ∧ x ≤ 1 := by
  have hgood := resize_goodState r N w h rand hrand
  have hgaps' : gapsOK 5 (r.resize N w h rand).mLastFrameNs ts = true := by
    rw [resize_mLastFrameNs]; exact hgaps
  exact (runSteps_goodState hgood hgaps').1

/-- Witness for C1 (amended) at a concrete input: one instance, offsets
seeded at `1/2`, velocities `5/2`, steps at `t = 5` and `t = 5 + 10^9`
(`dt = 1 s`), after which the x offset sits at `3/4`, inside `[-1, 1]`. -/
theorem offsets_bounded_of_small_gaps_witness :
    -1 ≤ (3/4 : ℚ) ∧ (3/4 : ℚ) ≤ 1 :=
  offsets_bounded_of_small_gaps renderer0 1 1 1 (fun _ => 3/4) [5, 5 + 10^9]
    (fun _ => ⟨by norm_num, by norm_num⟩) (by with_unfolding_all decide)
    (3/4) (by with_unfolding_all decide)

/-- C2: the first `step()` call after a `resize()` (which resets
`mLastFrameNs` to `0`) moves nothing: every offset and velocity entry is
unchanged (as are the instance count and scale) and only the current
timestamp is recorded. -/
theorem first_step_after_resize_records_only (r : Renderer) (N w h : ℕ)
    (rand : ℕ → ℚ) (nowNs : ℕ) :
    ((r.resize N w h rand).step nowNs).localOffset
        = (r.resize N w h rand).localOffset ∧
    ((r.resize N w h rand).step nowNs).mVx = (r.resize N w h rand).mVx ∧
    ((r.resize N w h rand).step nowNs).mVy = (r.resize N w h rand).mVy ∧
    ((r.resize N w h rand).step nowNs).mScale = (r.resize N w h rand).mScale ∧
    ((r.resize N w h rand).step nowNs).mLastFrameNs = nowNs :=
  ⟨rfl, rfl, rfl, rfl, rfl⟩

/-- C10: a `step()` call never changes the magnitude of any velocity
entry: the multiset of absolute values of `mVx` (and of `mVy`) is
preserved entrywise (a bounce only flips a sign). -/
theorem step_preserves_velocity_magnitudes (r : Renderer) (nowNs : ℕ) :
    ((r.step nowNs).mVx.map fun v => |v|) = (r.mVx.map fun v => |v|) ∧
    ((r.step nowNs).mVy.map fun v => |v|) = (r.mVy.map fun v => |v|) := by
  unfold Renderer.step
  split
  · exact ⟨stepLoop_abs_vx _ _ _ _, stepLoop_abs_vy _ _ _ _⟩
  · exact ⟨rfl, rfl⟩

/-- C4: `resize(w,h)` seeds every offset component in
`[-offsetRatio/2, offsetRatio/2]` with the code's `offsetRatio = 2.0`
(hence in `[-1, 1]`), every velocity component in `[-5, 5]`, and resets
the last-frame timestamp to the uninitialized value `0`. -/
theorem resize_seeds_ranges (r : Renderer) (N w h : ℕ) (rand : ℕ → ℚ)
    (hrand : ∀ n, 0 ≤ rand n ∧ rand n < 1) :
    (r.resize N w h rand).offsetRatio = 2 ∧
    (∀ x ∈ (r.resize N w h rand).localOffset, -1 ≤ x ∧ x ≤ 1) ∧
    (∀ v ∈ (r.resize N w h rand).mVx, -5 ≤ v ∧ v ≤ 5) ∧
    (∀ v ∈ (r.resize N w h rand).mVy, -5 ≤ v ∧ v ≤ 5) ∧
    (r.resize N w h rand).mLastFrameNs = 0 := by
  obtain ⟨ho, hvx, hvy⟩ := resize_goodState r N w h rand hrand
  exact ⟨rfl, ho, fun v hv => abs_le.mp (hvx v hv),
    fun v hv => abs_le.mp (hvy v hv), rfl⟩

/-- Witness for C4 at a concrete input: with the constant stream `3/4`
the seeded offsets are `1/2` and the seeded velocities `5/2`, so the
range facts are checked on those concrete entries. -/
theorem resize_seeds_ranges_witness :
    (renderer0.resize 1 2 3 (fun _ => 3/4)).offsetRatio = 2 ∧
    (-1 ≤ (1/2 : ℚ) ∧ (1/2 : ℚ) ≤ 1) ∧
    (-5 ≤ (5/2 : ℚ) ∧ (5/2 : ℚ) ≤ 5) ∧
    (renderer0.resize 1 2 3 (fun _ => 3/4)).mLastFrameNs = 0 :=
  have H := resize_seeds_ranges renderer0 1 2 3 (fun _ => 3/4)
    (fun _ => ⟨by norm_num, by norm_num⟩)
  ⟨H.1, H.2.1 (1/2) (by with_unfolding_all decide),
    H.2.2.1 (5/2) (by with_unfolding_all decide), H.2.2.2.2⟩

/-- C5: after `resize(w, h)` with `w > 0`, the scale is exactly
`(0.1, 0.1 * (h/w))` in the exact-arithmetic model: the code's
`ratio * h / w` equals `0.1` times the aspect ratio `h/w`. -/
theorem resize_scale_aspect (r : Renderer) (N w h : ℕ) (rand : ℕ → ℚ)
    (_hw : 0 < w) :
    (r.resize N w h rand).mScale.2 = (1/10) * ((h:ℚ) / (w:ℚ)) ∧
    (r.resize N w h rand).mScale.1 = 1/10 := by
  constructor
  · show ((1/10) * (h:ℚ)) / (w:ℚ) = (1/10) * ((h:ℚ) / (w:ℚ))
    rw [mul_div_assoc]
  · rfl

/-- Witness for C5 at `w = 2`, `h = 3`. -/
theorem resize_scale_aspect_witness :
    (renderer0.resize 1 2 3 (fun _ => 0)).mScale.2
        = (1/10) * ((3:ℚ) / (2:ℚ)) ∧
    (renderer0.resize 1 2 3 (fun _ => 0)).mScale.1 = 1/10 :=
  resize_scale_aspect renderer0 1 2 3 (fun _ => 0) (by norm_num)

/-- C3: on a second-or-later `step()` (recorded timestamp positive) with
positive elapsed time, instance `k`'s x offset is incremented by
`mVx[2k] * dt * 0.1` (y by `mVy[2k] * dt * 0.1`); on each axis whose
updated offset leaves `(-1, 1]`×... i.e. exceeds `1` or falls below `-1`,
the axis velocity is negated and the offset is moved back by twice the
increment (undoing the overshoot past the old position). -/
theorem step_integrates_and_bounces (r : Renderer) (nowNs k : ℕ)
    (a p b q dt : ℚ)
    (hlast : 0 < r.mLastFrameNs) (hnow : r.mLastFrameNs < nowNs)
    (hdt : dt = ((nowNs - r.mLastFrameNs : ℕ) : ℚ) * (1/1000000000))
    (hlx : r.mVx.length = r.localOffset.length)
    (hly : r.mVy.length = r.localOffset.length)
    (ha : r.localOffset[2*k]? = some a) (hp : r.mVx[2*k]? = some p)
    (hb : r.localOffset[2*k+1]? = some b) (hq : r.mVy[2*k]? = some q) :
    0 < dt ∧
    (r.step nowNs).localOffset[2*k]? =
      some (if 1 < a + p * dt * (1/10) ∨ a + p * dt * (1/10) < -1
            then a + p * dt * (1/10) - 2 * (p * dt * (1/10))
            else a + p * dt * (1/10)) ∧
    (r.step nowNs).localOffset[2*k+1]? =
      some (if 1 < b + q * dt * (1/10) ∨ b + q * dt * (1/10) < -1
            then b + q * dt * (1/10) - 2 * (q * dt * (1/10))
            else b + q * dt * (1/10)) ∧
    (r.step nowNs).mVx[2*k]? =
      some (if 1 < a + p * dt * (1/10) ∨ a + p * dt * (1/10) < -1
            then -p else p) ∧
    (r.step nowNs).mVy[2*k]? =
      some (if 1 < b + q * dt * (1/10) ∨ b + q * dt * (1/10) < -1
            then -q else q) := by
  have hdtpos : 0 < dt := by
    rw [hdt]
    apply mul_pos _ (by norm_num)
    exact_mod_cast Nat.sub_pos_of_lt hnow
  have hfields :
      (r.step nowNs).localOffset = (stepLoop dt r.localOffset r.mVx r.mVy).1 ∧
      (r.step nowNs).mVx = (stepLoop dt r.localOffset r.mVx r.mVy).2.1 ∧
      (r.step nowNs).mVy = (stepLoop dt r.localOffset r.mVx r.mVy).2.2 := by
    unfold Renderer.step
    rw [if_pos hlast, ← hdt]
    exact ⟨rfl, rfl, rfl⟩
  obtain ⟨k1, k2, k3, k4⟩ :=
    stepLoop_getElem dt k r.localOffset r.mVx r.mVy hlx hly a p b q ha hp hb hq
  refine ⟨hdtpos, ?_, ?_, ?_, ?_⟩
  · rw [hfields.1, k1, bounceStep_fst_eq]
  · rw [hfields.1, k2, bounceStep_fst_eq]
  · rw [hfields.2.1, k3, bounceStep_snd_eq]
  · rw [hfields.2.2, k4, bounceStep_snd_eq]

/-- Witness for C3: one instance at offset `(1/2, 1/2)`, velocities
`(3, 3)`, last frame at `1 ns`, current step at `10^9 + 1 ns`, so
`dt = 1 s` and both axes move by `0.3` without bouncing. -/
theorem step_integrates_and_bounces_witness :
    0 < (1:ℚ) ∧
    ((Renderer.mk 1 [1/2, 1/2] [3, 0] [3, 0] 2 (1/10, 1/10) 1).step
        (10^9 + 1)).localOffset[2*0]? =
      some (if 1 < (1:ℚ)/2 + 3 * 1 * (1/10) ∨ (1:ℚ)/2 + 3 * 1 * (1/10) < -1
            then (1:ℚ)/2 + 3 * 1 * (1/10) - 2 * (3 * 1 * (1/10))
            else (1:ℚ)/2 + 3 * 1 * (1/10)) ∧
    ((Renderer.mk 1 [1/2, 1/2] [3, 0] [3, 0] 2 (1/10, 1/10) 1).step
        (10^9 + 1)).localOffset[2*0+1]? =
      some (if 1 < (1:ℚ)/2 + 3 * 1 * (1/10) ∨ (1:ℚ)/2 + 3 * 1 * (1/10) < -1
            then (1:ℚ)/2 + 3 * 1 * (1/10) - 2 * (3 * 1 * (1/10))
            else (1:ℚ)/2 + 3 * 1 * (1/10)) ∧
    ((Renderer.mk 1 [1/2, 1/2] [3, 0] [3, 0] 2 (1/10, 1/10) 1).step
        (10^9 + 1)).mVx[2*0]? =
      some (if 1 < (1:ℚ)/2 + 3 * 1 * (1/10) ∨ (1:ℚ)/2 + 3 * 1 * (1/10) < -1
            then -(3:ℚ) else 3) ∧
    ((Renderer.mk 1 [1/2, 1/2] [3, 0] [3, 0] 2 (1/10, 1/10) 1).step
        (10^9 + 1)).mVy[2*0]? =
      some (if 1 < (1:ℚ)/2 + 3 * 1 * (1/10) ∨ (1:ℚ)/2 + 3 * 1 * (1/10) < -1
            then -(3:ℚ) else 3) :=
  step_integrates_and_bounces
    (Renderer.mk 1 [1/2, 1/2] [3, 0] [3, 0] 2 (1/10, 1/10) 1)
    (10^9 + 1) 0 (1/2) 3 (1/2) 3 1
    (by norm_num) (by norm_num) (by with_unfolding_all decide)
    rfl rfl rfl rfl rfl rfl

/-- The message `createShader` logs on a compile failure is never the
empty string (it starts with fixed text). -/
lemma compile_msg_ne_empty (mid tail : String) :
    ("Could not compile " ++ mid ++ " shader:\n" ++ tail) ≠ "" := by
  intro hcontra
  have hlen := congrArg String.length hcontra
  have h18 : "Could not compile ".length = 18 := rfl
  simp only [String.length_append, h18, String.length_empty] at hlen
  omega

/-- C7 (counterexample): a shader source that fails to compile need not
produce any log: when the driver reports info-log length `0`, the source
emits nothing — the returned handle is `0` but the action trace is just
the `glDeleteShader`, with no `ALOGE` at all. -/
theorem createShader_fail_can_log_nothing :
    (createShader ⟨1, 0, false, 0, true, ""⟩ true).1 = 0 ∧
    (createShader ⟨1, 0, false, 0, true, ""⟩ true).2
        = [GLAction.deleteShader 1] ∧
    ((createShader ⟨1, 0, false, 0, true, ""⟩ true).2.filter
        fun a => a.isLog) = [] :=
  ⟨rfl, rfl, rfl⟩

/-- C7 (amended): when shader creation succeeded, a compile failure
returns the failure handle `0`, and — whenever the driver reports a
positive info-log length and the log buffer allocation succeeds — a
non-empty compiler log is emitted; a successful compile returns the
(nonzero) shader handle. -/
theorem createShader_compile_results (env : ShaderEnv) (isVertex : Bool)
    (hid : env.shaderId ≠ 0) :
    (env.compileOk = false →
      (createShader env isVertex).1 = 0 ∧
      (0 < env.infoLogLen → env.mallocOk = true →
        GLAction.logError ("Could not compile " ++
            (if isVertex then "vertex" else "fragment") ++
            " shader:\n" ++ env.infoLog) ∈ (createShader env isVertex).2 ∧
          ("Could not compile " ++
            (if isVertex then "vertex" else "fragment") ++
            " shader:\n" ++ env.infoLog) ≠ "")) ∧
    (env.compileOk = true →
      (createShader env isVertex).1 = env.shaderId ∧
      (createShader env isVertex).1 ≠ 0) := by
  constructor
  · intro hc
    unfold createShader
    rw [if_neg hid, hc]
    refine ⟨rfl, ?_⟩
    intro hlog hmalloc
    rw [if_pos hlog, hmalloc]
    exact ⟨by simp, compile_msg_ne_empty _ _⟩
  · intro hc
    unfold createShader
    rw [if_neg hid, hc]
    exact ⟨rfl, hid⟩

/-- Witness for C7 (amended): a failing compile with a one-byte info log
and a succeeding compile, both with handle `1`. -/
theorem createShader_compile_results_witness :
    ((createShader ⟨1, 0, false, 1, true, "x"⟩ true).1 = 0 ∧
      (0 < 1 → true = true →
        GLAction.logError ("Could not compile " ++
            (if true then "vertex" else "fragment") ++ " shader:\n" ++ "x")
            ∈ (createShader ⟨1, 0, false, 1, true, "x"⟩ true).2 ∧
          ("Could not compile " ++
            (if true then "vertex" else "fragment") ++
            " shader:\n" ++ "x") ≠ "")) ∧
    ((createShader ⟨1, 0, true, 1, true, "x"⟩ true).1 = 1 ∧
      (createShader ⟨1, 0, true, 1, true, "x"⟩ true).1 ≠ 0) :=
  ⟨(createShader_compile_results ⟨1, 0, false, 1, true, "x"⟩ true
      (by decide)).1 rfl,
   (createShader_compile_results ⟨1, 0, true, 1, true, "x"⟩ true
      (by decide)).2 rfl⟩

/-- C6: `createProgram` returns either `0` or the (nonzero) handle of a
program that linked; and whenever it returns `0`, every shader object
that was actually created has a matching `glDeleteShader` in the action
trace — the vertex shader whenever `glCreateShader` gave it a nonzero
handle, and the fragment shader whenever the vertex stage succeeded and
the fragment `glCreateShader` gave a nonzero handle. -/
theorem createProgram_result_and_cleanup (env : ProgramEnv) :
    ((createProgram env).1 ≠ 0 →
      (createProgram env).1 = env.programId ∧ env.linkOk = true) ∧
    ((createProgram env).1 = 0 →
      (env.vtxEnv.shaderId ≠ 0 →
        GLAction.deleteShader env.vtxEnv.shaderId ∈ (createProgram env).2) ∧
      ((createShader env.vtxEnv true).1 ≠ 0 → env.fragEnv.shaderId ≠ 0 →
        GLAction.deleteShader env.fragEnv.shaderId ∈ (createProgram env).2)) := by
  have hvtx : (createShader env.vtxEnv true).1 = 0 ∨
      (createShader env.vtxEnv true).1 = env.vtxEnv.shaderId := by
    unfold createShader
    split
    · exact Or.inl rfl
    · split
      · exact Or.inl rfl
      · exact Or.inr rfl
  have hfrag : (createShader env.fragEnv false).1 = 0 ∨
      (createShader env.fragEnv false).1 = env.fragEnv.shaderId := by
    unfold createShader
    split
    · exact Or.inl rfl
    · split
      · exact Or.inl rfl
      · exact Or.inr rfl
  have hvtxdel : env.vtxEnv.shaderId ≠ 0 →
      (createShader env.vtxEnv true).1 = 0 →
      GLAction.deleteShader env.vtxEnv.shaderId ∈
        (createShader env.vtxEnv true).2 := by
    intro hid h0
    unfold createShader at h0 ⊢
    rw [if_neg hid] at h0 ⊢
    split at h0
    · rename_i hcf
      rw [if_pos hcf]
      simp
    · exact absurd h0 hid
  have hfragdel : env.fragEnv.shaderId ≠ 0 →
      (createShader env.fragEnv false).1 = 0 →
      GLAction.deleteShader env.fragEnv.shaderId ∈
        (createShader env.fragEnv false).2 := by
    intro hid h0
    unfold createShader at h0 ⊢
    rw [if_neg hid] at h0 ⊢
    split at h0
    · rename_i hcf
      rw [if_pos hcf]
      simp
    · exact absurd h0 hid
  by_cases h1 : (createShader env.vtxEnv true).1 = 0
  · have hres : createProgram env =
        (0, (createShader env.vtxEnv true).2 ++
          [.deleteShader (createShader env.vtxEnv true).1,
           .deleteShader 0]) := by
      unfold createProgram
      rw [if_pos h1]
    rw [hres]
    refine ⟨fun hne => absurd rfl hne,
      fun _ => ⟨fun hid => ?_, fun hv _ => absurd h1 hv⟩⟩
    simp [hvtxdel hid h1]
  · have hv : (createShader env.vtxEnv true).1 = env.vtxEnv.shaderId :=
      hvtx.resolve_left h1
    by_cases h2 : (createShader env.fragEnv false).1 = 0
    · have hres : createProgram env =
          (0, (createShader env.vtxEnv true).2 ++
            (createShader env.fragEnv false).2 ++
            [.deleteShader (createShader env.vtxEnv true).1,
             .deleteShader (createShader env.fragEnv false).1]) := by
        unfold createProgram
        rw [if_neg h1, if_pos h2]
      rw [hres]
      refine ⟨fun hne => absurd rfl hne,
        fun _ => ⟨fun hid => ?_, fun _ hfid => ?_⟩⟩
      · rw [← hv]
        simp
      · simp [hfragdel hfid h2]
    · have hf : (createShader env.fragEnv false).1 = env.fragEnv.shaderId :=
        hfrag.resolve_left h2
      by_cases h3 : env.programId = 0
      · have hres : createProgram env =
            (0, (createShader env.vtxEnv true).2 ++
              (createShader env.fragEnv false).2 ++
              (if env.glError ≠ 0 then
                [.logError "GL error after glCreateProgram"] else []) ++
              [.deleteShader (createShader env.vtxEnv true).1,
               .deleteShader (createShader env.fragEnv false).1]) := by
          unfold createProgram
          rw [if_neg h1, if_neg h2, if_pos h3]
        rw [hres]
        refine ⟨fun hne => absurd rfl hne,
          fun _ => ⟨fun _ => ?_, fun _ _ => ?_⟩⟩
        · rw [← hv]
          simp
        · rw [← hf]
          simp
      · by_cases h4 : env.linkOk = false
        · have hres : createProgram env =
              (0, (createShader env.vtxEnv true).2 ++
                (createShader env.fragEnv false).2 ++
                ([.logError "Could not link program"] ++
                 (if 0 < env.infoLogLen then
                   (if env.mallocOk then
                     [.logError ("Could not link program:\n" ++ env.infoLog)]
                    else [])
                  else []) ++
                 [.deleteProgram env.programId]) ++
                [.deleteShader (createShader env.vtxEnv true).1,
                 .deleteShader (createShader env.fragEnv false).1]) := by
            unfold createProgram
            rw [if_neg h1, if_neg h2, if_neg h3, if_pos h4]
          rw [hres]
          refine ⟨fun hne => absurd rfl hne,
            fun _ => ⟨fun _ => ?_, fun _ _ => ?_⟩⟩
          · rw [← hv]
            simp
          · rw [← hf]
            simp
        · have hres : createProgram env =
              (env.programId,
                (createShader env.vtxEnv true).2 ++
                (createShader env.fragEnv false).2 ++
                [.deleteShader (createShader env.vtxEnv true).1,
                 .deleteShader (createShader env.fragEnv false).1]) := by
            unfold createProgram
            rw [if_neg h1, if_neg h2, if_neg h3, if_neg h4]
          rw [hres]
          refine ⟨fun _ => ⟨rfl, ?_⟩, fun h0 => absurd h0 h3⟩
          cases hEq : env.linkOk
          · exact absurd hEq h4
          · rfl

/-- Witness for C6: vertex shader compiles (handle 3), fragment shader
fails to compile (handle 7): the program fails with `0` and both shader
handles are deleted in the trace. -/
theorem createProgram_result_and_cleanup_witness :
    (GLAction.deleteShader 3 ∈
      (createProgram ⟨⟨3, 0, true, 0, true, ""⟩, ⟨7, 0, false, 0, true, ""⟩,
        0, 0, true, 0, true, ""⟩).2) ∧
    (GLAction.deleteShader 7 ∈
      (createProgram ⟨⟨3, 0, true, 0, true, ""⟩, ⟨7, 0, false, 0, true, ""⟩,
        0, 0, true, 0, true, ""⟩).2) :=
  ⟨((createProgram_result_and_cleanup
      ⟨⟨3, 0, true, 0, true, ""⟩, ⟨7, 0, false, 0, true, ""⟩,
        0, 0, true, 0, true, ""⟩).2 rfl).1 (by decide),
   ((createProgram_result_and_cleanup
      ⟨⟨3, 0, true, 0, true, ""⟩, ⟨7, 0, false, 0, true, ""⟩,
        0, 0, true, 0, true, ""⟩).2 rfl).2 (by decide) (by decide)⟩

/-- C8: when the global renderer pointer is null, the `resize` and `step`
boundary entry points change nothing and draw nothing. -/
theorem boundary_noop_when_null (s : AppState) (N w h nowNs : ℕ)
    (rand : ℕ → ℚ) (hnull : s.g_renderer = none) :
    jniResize s N w h rand = s ∧ jniStep s nowNs = (s, false) := by
  obtain ⟨g⟩ := s
  cases hnull
  exact ⟨rfl, rfl⟩

/-- Witness for C8 with the concrete null state. -/
theorem boundary_noop_when_null_witness :
    jniResize ⟨none⟩ 1 2 3 (fun _ => 0) = ⟨none⟩ ∧
    jniStep ⟨none⟩ 4 = (⟨none⟩, false) :=
  boundary_noop_when_null ⟨none⟩ 1 2 3 4 (fun _ => 0) rfl

/-- C9: `init` frees any existing renderer first (the free is the first
recorded action), then dispatches on the version string: the ES3 creator
result is installed when it contains `"OpenGL ES 3."`, else the ES2
creator result when it contains `"OpenGL ES 2."`, otherwise an error is
logged and the global pointer is left null. -/
theorem init_backend_selection (s : AppState) (version : String)
    (es3New es2New : Option Renderer) :
    (strstr "OpenGL ES 3.".data version.data = true →
      (jniInit s version es3New es2New).1.g_renderer = es3New) ∧
    (strstr "OpenGL ES 3.".data version.data = false →
      strstr "OpenGL ES 2.".data version.data = true →
      (jniInit s version es3New es2New).1.g_renderer = es2New) ∧
    (strstr "OpenGL ES 3.".data version.data = false →
      strstr "OpenGL ES 2.".data version.data = false →
      (jniInit s version es3New es2New).1.g_renderer = none ∧
      InitAction.logUnsupported ∈ (jniInit s version es3New es2New).2) ∧
    (∀ old, s.g_renderer = some old →
      (jniInit s version es3New es2New).2.head?
        = some InitAction.freeRenderer) := by
  refine ⟨?_, ?_, ?_, ?_⟩
  · intro h3
    simp [jniInit, gl3stubInit, h3]
  · intro h3 h2
    simp [jniInit, gl3stubInit, h3, h2]
  · intro h3 h2
    simp [jniInit, gl3stubInit, h3, h2]
  · intro old hold
    rcases hEq3 : strstr "OpenGL ES 3.".data version.data <;>
      rcases hEq2 : strstr "OpenGL ES 2.".data version.data <;>
      simp [jniInit, gl3stubInit, hEq3, hEq2, hold]

/-- Witness for C9: a state holding a renderer, ES3 version string. -/
theorem init_backend_selection_witness :
    (jniInit ⟨some renderer0⟩ "OpenGL ES 3.1" (some renderer0)
        none).1.g_renderer = some renderer0 ∧
    (jniInit ⟨some renderer0⟩ "OpenGL ES 3.1" (some renderer0)
        none).2.head? = some InitAction.freeRenderer :=
  ⟨(init_backend_selection ⟨some renderer0⟩ "OpenGL ES 3.1"
      (some renderer0) none).1 (by decide),
   (init_backend_selection ⟨some renderer0⟩ "OpenGL ES 3.1"
      (some renderer0) none).2.2.2 renderer0 rfl⟩

end GLES3JNI
